import Mathlib

/-!
Verification of the Astralis registry validation scripts.

Shallow embedding of the two YAML-registry validation scripts in this
repository:

* `tools/validate.mjs` (here suffixed `_v1`): requires `adapter.yml`,
  walks `frameworks/` and `plugins/` subdirectories, treats a missing
  schema as an error;
* the extended, unnamed variant of the script (here suffixed `_v2`):
  treats a missing schema as a warning, checks the display name, and
  walks the `registryExtensions` reference chain (frameworks spec,
  config spec index, per-file config schemas).

Modelling conventions, noted once here:
* YAML/JS values are the inductive `Value`; absent object fields and JS
  `undefined` are both modelled as `Value.null` (the scripts only ever
  branch on truthiness or compare scalars, where the collapse is
  behaviour-preserving for the document shapes the scripts read).
* The filesystem is a finite map from paths to parse outcomes
  (`Except String Value`: the parsed value, or the YAML parser's error
  message) plus a finite map from directory paths to entry listings.
  `fs.readFileSync` + `yaml.load` of a path outside the file map raises,
  which `readYAML` catches exactly like a parse failure (the scripts'
  `try`/`catch` does not distinguish the two).
* `path.join a b` is modelled as `a ++ "/" ++ b` (no relative-path
  normalisation occurs in the repository's data).
* An AJV compiled validator is abstracted as a function
  `Value → List AjvError` returning the violation list (`[]` = valid);
  the scripts only consume `validate(data)`'s boolean and
  `validate.errors`.
* Template-literal interpolation of a value is `Value.display`; the
  scripts only interpolate scalars in the messages the claims touch.
* JS strict equality `===`/`!==` is `jsEq`: structural on scalars. The
  scripts compare freshly parsed document fields, so two object/array
  operands are never reference-equal; `jsEq` returns `false` there.
-/

namespace Registries

/-- A parsed YAML/JSON value as the scripts see it (`undefined` and
`null` collapsed into `null`). -/
inductive Value where
  | null : Value
  | bool : Bool → Value
  | str : String → Value
  | num : Int → Value
  | arr : List Value → Value
  | obj : List (String × Value) → Value

/-- JS truthiness of a value. -/
def Value.truthy : Value → Bool
  | .null => false
  | .bool b => b
  | .str s => !s.isEmpty
  | .num n => n != 0
  | .arr _ => true
  | .obj _ => true

/-- JS strict equality as the scripts use it: structural on scalars;
`false` on object/array operands (distinct parse results are never
reference-equal). -/
def jsEq : Value → Value → Bool
  | .null, .null => true
  | .bool a, .bool b => a == b
  | .str a, .str b => a == b
  | .num a, .num b => a == b
  | _, _ => false

/-- Property access `v.k`: `null` (for JS `undefined`) when absent or
when `v` is not an object. -/
def Value.get : Value → String → Value
  | .obj kvs, k =>
      match kvs.find? (fun e => e.1 == k) with
      | some e => e.2
      | none => .null
  | _, _ => .null

/-- `Array.isArray`. -/
def Value.isArr : Value → Bool
  | .arr _ => true
  | _ => false

/-- The element list of an array value (used after an `Array.isArray`
guard). -/
def Value.elems : Value → List Value
  | .arr xs => xs
  | _ => []

/-- Template-literal interpolation of a value. Scalar cases follow JS
exactly; the array/object renderings are abstracted (the scripts only
interpolate scalar fields in the messages studied here). -/
def Value.display : Value → String
  | .str s => s
  | .num n => toString n
  | .bool b => if b then "true" else "false"
  | .null => "null"
  | .arr _ => "[array]"
  | .obj _ => "[object Object]"

/-- The filesystem the run sees: parse outcome per file path, entry
listing per directory path. -/
structure FSys where
  files : List (String × Except String Value)
  dirs : List (String × List String)

/-- Parse outcome stored for a file path, if a file is there. -/
def lookupFile (fsys : FSys) (p : String) : Option (Except String Value) :=
  (fsys.files.find? (fun e => e.1 == p)).map (fun e => e.2)

/-- A regular file exists at `p`. -/
def isFile (fsys : FSys) (p : String) : Bool :=
  (lookupFile fsys p).isSome

/-- Directory listing at `d`, if a directory is there. -/
def dirEntries (fsys : FSys) (d : String) : Option (List String) :=
  (fsys.dirs.find? (fun e => e.1 == d)).map (fun e => e.2)

/-- A directory exists at `d`. -/
def isDir (fsys : FSys) (d : String) : Bool :=
  (dirEntries fsys d).isSome

/-- `fs.existsSync`: true for files and directories alike. -/
def existsSync (fsys : FSys) (p : String) : Bool :=
  isFile fsys p || isDir fsys p

/-- `fs.readdirSync` under an `existsSync` guard. -/
def listDir (fsys : FSys) (d : String) : List String :=
  (dirEntries fsys d).getD []

/-- `path.join` as used on the repository's relative references. -/
def pathJoin (a b : String) : String := a ++ "/" ++ b

/-- The shared mutable accumulator (`errors`/`warnings` arrays). -/
structure VResult where
  errors : List String
  warnings : List String
deriving DecidableEq

/-- `errors.push(m)`. -/
def VResult.addError (r : VResult) (m : String) : VResult :=
  ⟨r.errors ++ [m], r.warnings⟩

/-- `warnings.push(m)`. -/
def VResult.addWarning (r : VResult) (m : String) : VResult :=
  ⟨r.errors, r.warnings ++ [m]⟩

/-- One AJV violation record (`instancePath`, `message`). -/
structure AjvError where
  instancePath : String
  message : String

/-- An AJV compiled validator, abstracted to the violation list it
reports (`[]` means the document is valid). -/
def SchemaFn := Value → List AjvError

/-- The AJV instance after schema registration: schema name to compiled
validator. -/
def Registry := List (String × SchemaFn)

/-- `ajv.getSchema(name)`. -/
def getSchema (reg : Registry) (n : String) : Option SchemaFn :=
  (reg.find? (fun e => e.1 == n)).map (fun e => e.2)

/-- JS `String.prototype.includes` for the non-empty needles the filter
uses. -/
def containsSub (s sub : String) : Bool :=
  (s.splitOn sub).length > 1

/-- `readYAML(filePath)`: returns the parsed value, or pushes one
`Failed to parse YAML <path>: <message>` error and returns `null`.  The
`try`/`catch` is modelled by the embedding being total: a read or parse
failure never escapes this function, so the caller's traversal always
continues with the remaining documents. -/
def readYAML (fsys : FSys) (filePath : String) (r : VResult) : Value × VResult :=
  match lookupFile fsys filePath with
  | some (Except.ok v) => (v, r)
  | some (Except.error m) =>
      (Value.null, r.addError ("Failed to parse YAML " ++ filePath ++ ": " ++ m))
  | none =>
      (Value.null, r.addError ("Failed to parse YAML " ++ filePath ++ ": " ++
        ("ENOENT: no such file or directory, open " ++ filePath)))

/-- The extended script's tolerance filter over AJV violations
(`validate.errors.filter(...)`): `true` keeps the violation as
relevant. -/
def ajvKeep (e : AjvError) : Bool :=
  let path := e.instancePath
  let msg := e.message
  if containsSub path "specVersion" || containsSub path "registryExtensions" ||
      containsSub path "defaults" then false
  else if containsSub msg "must match pattern" && containsSub path "specVersion" then false
  else if containsSub msg "must NOT have additional properties" &&
      (path == "" || path == "/") then false
  else true

/-- Rendering of one AJV violation: `  - <instancePath || root>: <message>`. -/
def renderAjv (e : AjvError) : String :=
  "  - " ++ ((if e.instancePath == "" then "root" else e.instancePath) ++ (": " ++ e.message))

/-- Pushing a violation list: header line, then one line per violation. -/
def pushAjvErrors (r : VResult) (filePath : String) (es : List AjvError) : VResult :=
  es.foldl (fun acc e => acc.addError (renderAjv e))
    (r.addError ("Validation failed for " ++ (filePath ++ ":")))

/-- `validateSchema` of `tools/validate.mjs`: a missing schema is an
error and the call fails. -/
def validateSchema_v1 (reg : Registry) (data : Value) (schemaName filePath : String)
    (r : VResult) : Bool × VResult :=
  match getSchema reg schemaName with
  | none => (false, r.addError ("Schema " ++ (schemaName ++ " not found")))
  | some validator =>
      let es := validator data
      if es.isEmpty then (true, r)
      else (false, pushAjvErrors r filePath es)

/-- `validateSchema` of the extended script: a missing schema is a
warning and the call succeeds; found schemas go through the tolerance
filter, and only the remaining relevant violations are pushed. -/
def validateSchema_v2 (reg : Registry) (data : Value) (schemaName filePath : String)
    (r : VResult) : Bool × VResult :=
  match getSchema reg schemaName with
  | none =>
      (true, r.addWarning ("Schema " ++ (schemaName ++ (" not found for " ++
        (filePath ++ " - skipping schema validation")))))
  | some validator =>
      let es := validator data
      if es.isEmpty then (true, r)
      else
        let relevant := es.filter ajvKeep
        if relevant.length > 0 then (false, pushAjvErrors r filePath relevant)
        else (true, r)

/-- The `gameData.id !== game.id` check of `tools/validate.mjs` (error on
mismatch). -/
def idCheck (game gameData : Value) (r : VResult) : VResult :=
  if !(jsEq (gameData.get "id") (game.get "id")) then
    r.addError ("Game " ++ ((game.get "id").display ++ (": game.yml id (" ++
      ((gameData.get "id").display ++ ") does not match index"))))
  else r

/-- The `game.yml` block of `tools/validate.mjs`: existence, load,
schema validation, id back-reference. -/
def checkGameYml_v1 (fsys : FSys) (reg : Registry) (game : Value) (gameDir : String)
    (r : VResult) : VResult :=
  let gameYml := pathJoin gameDir "game.yml"
  if !(existsSync fsys gameYml) then
    r.addError ("Game " ++ ((game.get "id").display ++ ": game.yml not found"))
  else
    let L := readYAML fsys gameYml r
    if L.1.truthy then
      idCheck game L.1 (validateSchema_v1 reg L.1 "game" gameYml L.2).2
    else L.2

/-- The `adapter.yml` block of `tools/validate.mjs`: absence is an
error; otherwise load, schema-validate, check the `gameId`
back-reference. -/
def checkAdapter_v1 (fsys : FSys) (reg : Registry) (game : Value) (gameDir : String)
    (r : VResult) : VResult :=
  let adapterYml := pathJoin gameDir "adapter.yml"
  if !(existsSync fsys adapterYml) then
    r.addError ("Game " ++ ((game.get "id").display ++ ": adapter.yml not found"))
  else
    let L := readYAML fsys adapterYml r
    if L.1.truthy then
      let r2 := (validateSchema_v1 reg L.1 "adapter" adapterYml L.2).2
      if !(jsEq (L.1.get "gameId") (game.get "id")) then
        r2.addError ("Game " ++ ((game.get "id").display ++ (": adapter.yml gameId (" ++
          ((L.1.get "gameId").display ++ ") does not match"))))
      else r2
    else L.2

/-- One framework file of `tools/validate.mjs`: load, schema-validate,
check the `gameId` back-reference. -/
def checkFrameworkFile_v1 (fsys : FSys) (reg : Registry) (game : Value)
    (frameworksDir : String) (r : VResult) (frameworkFile : String) : VResult :=
  let frameworkPath := pathJoin frameworksDir frameworkFile
  let L := readYAML fsys frameworkPath r
  if L.1.truthy then
    let r2 := (validateSchema_v1 reg L.1 "framework" frameworkPath L.2).2
    if !(jsEq (L.1.get "gameId") (game.get "id")) then
      r2.addError ("Framework " ++ (frameworkFile ++ (": gameId (" ++
        ((L.1.get "gameId").display ++ (") does not match game " ++
          (game.get "id").display)))))
    else r2
  else L.2

/-- One plugin subdirectory of `tools/validate.mjs`: a missing
`plugin.yml` is an error; an existing one is loaded, schema-validated
and back-reference-checked; unconditionally afterwards, a missing
`schema.yml` is a warning (the warning is outside the `plugin.yml`
branch in the script). -/
def checkPlugin_v1 (fsys : FSys) (reg : Registry) (game : Value) (pluginsDir : String)
    (r : VResult) (pluginId : String) : VResult :=
  let pluginDir := pathJoin pluginsDir pluginId
  let pluginYml := pathJoin pluginDir "plugin.yml"
  let schemaYml := pathJoin pluginDir "schema.yml"
  let r1 :=
    if !(existsSync fsys pluginYml) then
      r.addError ("Plugin " ++ (pluginId ++ ": plugin.yml not found"))
    else
      let L := readYAML fsys pluginYml r
      if L.1.truthy then
        let r2 := (validateSchema_v1 reg L.1 "plugin" pluginYml L.2).2
        if !(jsEq (L.1.get "gameId") (game.get "id")) then
          r2.addError ("Plugin " ++ (pluginId ++ (": gameId (" ++
            ((L.1.get "gameId").display ++ (") does not match game " ++
              (game.get "id").display)))))
        else r2
      else L.2
  if !(existsSync fsys schemaYml) then
    r1.addWarning ("Plugin " ++ (pluginId ++ ": schema.yml not found (optional but recommended)"))
  else r1

/-- One index entry of `tools/validate.mjs`: directory existence, then
`game.yml`, `adapter.yml`, the `frameworks/` files and the `plugins/`
subdirectories. -/
def checkGame_v1 (fsys : FSys) (reg : Registry) (rootDir : String) (r : VResult)
    (game : Value) : VResult :=
  let gameDir := pathJoin rootDir (game.get "path").display
  if !(existsSync fsys gameDir) then
    r.addError ("Game " ++ ((game.get "id").display ++ (": directory " ++
      ((game.get "path").display ++ " does not exist"))))
  else
    let r1 := checkGameYml_v1 fsys reg game gameDir r
    let r2 := checkAdapter_v1 fsys reg game gameDir r1
    let frameworksDir := pathJoin gameDir "frameworks"
    let r3 :=
      if existsSync fsys frameworksDir then
        ((listDir fsys frameworksDir).filter (fun f => f.endsWith ".yml")).foldl
          (checkFrameworkFile_v1 fsys reg game frameworksDir) r2
      else r2
    let pluginsDir := pathJoin gameDir "plugins"
    if existsSync fsys pluginsDir then
      ((listDir fsys pluginsDir).filter (fun d => isDir fsys (pathJoin pluginsDir d))).foldl
        (checkPlugin_v1 fsys reg game pluginsDir) r3
    else r3

/-- The `gameData.name && gameData.name !== game.name` check of the
extended script (warning on mismatch when a name is present). -/
def nameCheck_v2 (game gameData : Value) (r : VResult) : VResult :=
  if (gameData.get "name").truthy && !(jsEq (gameData.get "name") (game.get "name")) then
    r.addWarning ("Game " ++ ((game.get "id").display ++ (": game.yml name (" ++
      ((gameData.get "name").display ++ (") does not match index name (" ++
        ((game.get "name").display ++ ")"))))))
  else r

/-- One framework descriptor inside a frameworks specification file
(extended script): `id` and `name` are required. -/
def checkFramework_v2 (game : Value) (r : VResult) (framework : Value) : VResult :=
  if !(framework.get "id").truthy || !(framework.get "name").truthy then
    r.addError ("Game " ++ ((game.get "id").display ++ ": framework missing id or name"))
  else r

/-- The `frameworksSpecRef` branch of the extended script: a dangling
reference is an error; an existing file is loaded and its `version` and
`frameworks` array (with per-descriptor `id`/`name`) are required. -/
def checkFrameworksSpec_v2 (fsys : FSys) (game : Value) (gameDir : String) (ref : Value)
    (r : VResult) : VResult :=
  let frameworksPath := pathJoin gameDir ref.display
  if !(existsSync fsys frameworksPath) then
    r.addError ("Game " ++ ((game.get "id").display ++ (": frameworks spec not found at " ++
      ref.display)))
  else
    let L := readYAML fsys frameworksPath r
    if L.1.truthy then
      let r2 :=
        if !(L.1.get "version").truthy then
          L.2.addError ("Game " ++ ((game.get "id").display ++ ": frameworks.yml missing version"))
        else L.2
      if !(L.1.get "frameworks").truthy || !(L.1.get "frameworks").isArr then
        r2.addError ("Game " ++ ((game.get "id").display ++ ": frameworks.yml missing frameworks array"))
      else
        (L.1.get "frameworks").elems.foldl (checkFramework_v2 game) r2
    else L.2

/-- One config file descriptor of a config specification index
(extended script): a descriptor without `schemaRef` is a warning; a
dangling `schemaRef` is an error; an existing schema file is loaded and
checked for `version`, `file.format`, and the kind-dependent shape
(`kv` without `fields` is a warning, `list` without `lineSchema` is an
error). -/
def checkConfigFile_v2 (fsys : FSys) (game : Value) (gameDir : String) (r : VResult)
    (configFile : Value) : VResult :=
  if !(configFile.get "schemaRef").truthy then
    r.addWarning ("Game " ++ ((game.get "id").display ++ (": config file " ++
      ((configFile.get "id").display ++ " missing schemaRef"))))
  else
    let schemaPath := pathJoin gameDir (configFile.get "schemaRef").display
    if !(existsSync fsys schemaPath) then
      r.addError ("Game " ++ ((game.get "id").display ++ (": config schema not found at " ++
        (configFile.get "schemaRef").display)))
    else
      let L := readYAML fsys schemaPath r
      if L.1.truthy then
        let r2 :=
          if !(L.1.get "version").truthy then
            L.2.addError ("Game " ++ ((game.get "id").display ++ (": " ++
              ((configFile.get "schemaRef").display ++ " missing version"))))
          else L.2
        let r3 :=
          if !(L.1.get "file").truthy || !((L.1.get "file").get "format").truthy then
            r2.addError ("Game " ++ ((game.get "id").display ++ (": " ++
              ((configFile.get "schemaRef").display ++ " missing file.format"))))
          else r2
        let r4 :=
          if jsEq (configFile.get "kind") (Value.str "kv") && !(L.1.get "fields").truthy then
            r3.addWarning ("Game " ++ ((game.get "id").display ++ (": " ++
              ((configFile.get "schemaRef").display ++ " missing fields (KV format should have fields)"))))
          else r3
        if jsEq (configFile.get "kind") (Value.str "list") && !(L.1.get "lineSchema").truthy then
          r4.addError ("Game " ++ ((game.get "id").display ++ (": " ++
            ((configFile.get "schemaRef").display ++ " missing lineSchema (list format requires lineSchema)"))))
        else r4
      else L.2

/-- The `configSpecRef` branch of the extended script: a dangling
reference is an error; an existing index file is loaded and its
`version` and `files` array are required, each descriptor then going
through `checkConfigFile_v2`. -/
def checkConfigSpec_v2 (fsys : FSys) (game : Value) (gameDir : String) (ref : Value)
    (r : VResult) : VResult :=
  let configIndexPath := pathJoin gameDir ref.display
  if !(existsSync fsys configIndexPath) then
    r.addError ("Game " ++ ((game.get "id").display ++ (": config spec not found at " ++
      ref.display)))
  else
    let L := readYAML fsys configIndexPath r
    if L.1.truthy then
      let r2 :=
        if !(L.1.get "version").truthy then
          L.2.addError ("Game " ++ ((game.get "id").display ++ ": config/index.yml missing version"))
        else L.2
      if !(L.1.get "files").truthy || !(L.1.get "files").isArr then
        r2.addError ("Game " ++ ((game.get "id").display ++ ": config/index.yml missing files array"))
      else
        (L.1.get "files").elems.foldl (checkConfigFile_v2 fsys game gameDir) r2
    else L.2

/-- One index entry of the extended script: directory existence,
`game.yml` load and schema validation, display-name check, then the
optional `registryExtensions` reference chain. -/
def checkGame_v2 (fsys : FSys) (reg : Registry) (rootDir : String) (r : VResult)
    (game : Value) : VResult :=
  let gameDir := pathJoin rootDir (game.get "path").display
  if !(existsSync fsys gameDir) then
    r.addError ("Game " ++ ((game.get "id").display ++ (": directory " ++
      ((game.get "path").display ++ " does not exist"))))
  else
    let gameYml := pathJoin gameDir "game.yml"
    if !(existsSync fsys gameYml) then
      r.addError ("Game " ++ ((game.get "id").display ++ ": game.yml not found"))
    else
      let L := readYAML fsys gameYml r
      if L.1.truthy then
        let r3 := nameCheck_v2 game L.1 (validateSchema_v2 reg L.1 "game" gameYml L.2).2
        if (L.1.get "registryExtensions").truthy then
          let re := L.1.get "registryExtensions"
          let r4 :=
            if (re.get "frameworksSpecRef").truthy then
              checkFrameworksSpec_v2 fsys game gameDir (re.get "frameworksSpecRef") r3
            else r3
          if (re.get "configSpecRef").truthy then
            checkConfigSpec_v2 fsys game gameDir (re.get "configSpecRef") r4
          else r4
        else r3
      else L.2

/-- The message for a manifest/index `specVersion` mismatch. -/
def specMismatchMsg (index manifest : Value) : String :=
  "index.yml specVersion (" ++ ((index.get "specVersion").display ++
    (") does not match manifest.yml specVersion (" ++
      ((manifest.get "specVersion").display ++ ")")))

/-- `index.games || []` followed by `for...of` (a truthy non-array
`games` would make the JS loop throw; the registry data and every claim
use a list or absence, so that branch yields the empty traversal
here). -/
def gamesList (index : Value) : List Value :=
  match index.get "games" with
  | Value.arr xs => xs
  | _ => []

/-- Everything `tools/validate.mjs` does before the game loop: load and
validate the manifest and the index, and the `specVersion` comparison.
Returns the parsed index value together with the accumulated result. -/
def afterIndexChecks_v1 (fsys : FSys) (reg : Registry) (rootDir : String) :
    Value × VResult :=
  let M := readYAML fsys (pathJoin rootDir "manifest.yml") ⟨[], []⟩
  let r2 := if M.1.truthy then (validateSchema_v1 reg M.1 "manifest" "manifest.yml" M.2).2 else M.2
  let I := readYAML fsys (pathJoin rootDir "index.yml") r2
  if I.1.truthy then
    let r4 := (validateSchema_v1 reg I.1 "index" "index.yml" I.2).2
    let r5 :=
      if M.1.truthy && !(jsEq (I.1.get "specVersion") (M.1.get "specVersion")) then
        r4.addError (specMismatchMsg I.1 M.1)
      else r4
    (I.1, r5)
  else (I.1, I.2)

/-- The whole `tools/validate.mjs` run on a filesystem, schema registry
and root directory: the final error/warning accumulator. -/
def runValidation_v1 (fsys : FSys) (reg : Registry) (rootDir : String) : VResult :=
  let I := afterIndexChecks_v1 fsys reg rootDir
  if I.1.truthy then (gamesList I.1).foldl (checkGame_v1 fsys reg rootDir) I.2 else I.2

/-- Everything the extended script does before the game loop. -/
def afterIndexChecks_v2 (fsys : FSys) (reg : Registry) (rootDir : String) :
    Value × VResult :=
  let M := readYAML fsys (pathJoin rootDir "manifest.yml") ⟨[], []⟩
  let r2 := if M.1.truthy then (validateSchema_v2 reg M.1 "manifest" "manifest.yml" M.2).2 else M.2
  let I := readYAML fsys (pathJoin rootDir "index.yml") r2
  if I.1.truthy then
    let r4 := (validateSchema_v2 reg I.1 "index" "index.yml" I.2).2
    let r5 :=
      if M.1.truthy && !(jsEq (I.1.get "specVersion") (M.1.get "specVersion")) then
        r4.addError (specMismatchMsg I.1 M.1)
      else r4
    (I.1, r5)
  else (I.1, I.2)

/-- The whole extended-script run. -/
def runValidation_v2 (fsys : FSys) (reg : Registry) (rootDir : String) : VResult :=
  let I := afterIndexChecks_v2 fsys reg rootDir
  if I.1.truthy then (gamesList I.1).foldl (checkGame_v2 fsys reg rootDir) I.2 else I.2

/-- The exit logic shared by both scripts: `process.exit(1)` when the
error array is non-empty, `process.exit(0)` otherwise (warnings are
printed but never consulted). -/
def exitCode (r : VResult) : Nat :=
  if r.errors.length > 0 then 1 else 0

/-- The fixed leading tags of every message either script ever pushes
from `readYAML`, `validateSchema` or the game loop.  The
manifest/index `specVersion` mismatch message is the one push outside
this set; that separation yields the exactly-once counting results. -/
def msgTags : List String :=
  ["Failed to parse YAML ", "Schema ", "Validation failed for ", "  - ",
   "Game ", "Plugin ", "Framework "]

/-- A message starting with one of the game-loop/loader/validator
tags. -/
def Tagged (s : String) : Prop :=
  ∃ p t, p ∈ msgTags ∧ s = p ++ t

/-- `r'` extends `r` by appending only tagged messages to each
sequence. -/
def TaggedExt (r r' : VResult) : Prop :=
  (∃ es, r'.errors = r.errors ++ es ∧ ∀ s ∈ es, Tagged s) ∧
  (∃ ws, r'.warnings = r.warnings ++ ws ∧ ∀ s ∈ ws, Tagged s)

/-- An AJV validator that reports no violations, standing in for a
compiled schema the documents satisfy. -/
def passFn : SchemaFn := fun _ => []

/-- A registry in which every schema name the scripts look up resolves
and every document passes. -/
def regOK : Registry :=
  [("manifest", passFn), ("index", passFn), ("game", passFn),
   ("adapter", passFn), ("framework", passFn), ("plugin", passFn)]

/-- An empty filesystem. -/
def fsEmpty : FSys := ⟨[], []⟩

/-- The index entry used by the concrete trees below. -/
def gameRefRust : Value :=
  Value.obj [("id", Value.str "rust"), ("name", Value.str "Rust"),
    ("path", Value.str "games/rust")]

/-- A minimal tree whose one entry has a valid `game.yml` but no
`adapter.yml`. -/
def fsNoAdapter : FSys :=
  ⟨[("R/manifest.yml", Except.ok (Value.obj [("specVersion", Value.str "1.0")])),
    ("R/index.yml", Except.ok (Value.obj [("specVersion", Value.str "1.0"),
      ("games", Value.arr [gameRefRust])])),
    ("R/games/rust/game.yml", Except.ok (Value.obj [("id", Value.str "rust")]))],
   [("R/games/rust", ["game.yml"])]⟩

/-- A minimal valid tree plus one empty plugin subdirectory
(`plugins/gather-manager` with neither `plugin.yml` nor
`schema.yml`). -/
def fsEmptyPlugin : FSys :=
  ⟨[("R/manifest.yml", Except.ok (Value.obj [("specVersion", Value.str "1.0")])),
    ("R/index.yml", Except.ok (Value.obj [("specVersion", Value.str "1.0"),
      ("games", Value.arr [gameRefRust])])),
    ("R/games/rust/game.yml", Except.ok (Value.obj [("id", Value.str "rust")])),
    ("R/games/rust/adapter.yml", Except.ok (Value.obj [("gameId", Value.str "rust")]))],
   [("R/games/rust", ["game.yml", "adapter.yml", "plugins"]),
    ("R/games/rust/plugins", ["gather-manager"]),
    ("R/games/rust/plugins/gather-manager", [])]⟩

/-- Manifest and index agreeing on `specVersion`, with no `games`
field. -/
def fsNoGames : FSys :=
  ⟨[("R/manifest.yml", Except.ok (Value.obj [("specVersion", Value.str "1.0")])),
    ("R/index.yml", Except.ok (Value.obj [("specVersion", Value.str "1.0")]))],
   []⟩

/-- Manifest and index disagreeing on `specVersion` (`"1.0"` vs
`"1.1"`), with no `games` field. -/
def fsMismatch : FSys :=
  ⟨[("R/manifest.yml", Except.ok (Value.obj [("specVersion", Value.str "1.0")])),
    ("R/index.yml", Except.ok (Value.obj [("specVersion", Value.str "1.1")]))],
   []⟩

/-- A config schema file that has `version` and `file.format` but
neither `fields` nor `lineSchema`. -/
def fsConfigSchema : FSys :=
  ⟨[("G/config/structure.yml", Except.ok (Value.obj [("version", Value.str "1"),
      ("file", Value.obj [("format", Value.str "lines")])]))],
   []⟩

/-- A config file descriptor of `list` kind referencing
`config/structure.yml`. -/
def cfListDesc : Value :=
  Value.obj [("id", Value.str "structure"), ("schemaRef", Value.str "config/structure.yml"),
    ("kind", Value.str "list")]

/-- The same descriptor with `kv` kind. -/
def cfKVDesc : Value :=
  Value.obj [("id", Value.str "server"), ("schemaRef", Value.str "config/structure.yml"),
    ("kind", Value.str "kv")]

/-- A filesystem holding one YAML file whose parse fails. -/
def fsParseErr : FSys :=
  ⟨[("R/games/rust/game.yml",
      Except.error "bad indentation of a mapping entry (3:1)")],
   []⟩

/-- An entry document whose identifier and name differ from
`gameRefRust`. -/
def gdOther : Value :=
  Value.obj [("id", Value.str "cs2"), ("name", Value.str "Counter-Strike 2")]

/-- A filesystem holding that entry document at `G/game.yml`. -/
def fsGameOther : FSys := ⟨[("G/game.yml", Except.ok gdOther)], []⟩

/-- An adapter document whose owner back-reference does not match
`gameRefRust`. -/
def adOther : Value := Value.obj [("gameId", Value.str "cs2")]

/-- A filesystem holding that adapter document at `G/adapter.yml`. -/
def fsAdapterOther : FSys := ⟨[("G/adapter.yml", Except.ok adOther)], []⟩

theorem readYAML_ok {fsys : FSys} {p : String} {v : Value} (r : VResult)
    (h : lookupFile fsys p = some (Except.ok v)) : readYAML fsys p r = (v, r) := by
  unfold readYAML
  rw [h]

theorem taggedExt_refl (r : VResult) : TaggedExt r r :=
  ⟨⟨[], by simp⟩, ⟨[], by simp⟩⟩

theorem taggedExt_trans {r1 r2 r3 : VResult} (h1 : TaggedExt r1 r2)
    (h2 : TaggedExt r2 r3) : TaggedExt r1 r3 := by
  obtain ⟨⟨es1, he1, te1⟩, ⟨ws1, hw1, tw1⟩⟩ := h1
  obtain ⟨⟨es2, he2, te2⟩, ⟨ws2, hw2, tw2⟩⟩ := h2
  refine ⟨⟨es1 ++ es2, ?_, ?_⟩, ⟨ws1 ++ ws2, ?_, ?_⟩⟩
  · rw [he2, he1, List.append_assoc]
  · intro s hs
    rcases List.mem_append.mp hs with h | h
    · exact te1 s h
    · exact te2 s h
  · rw [hw2, hw1, List.append_assoc]
  · intro s hs
    rcases List.mem_append.mp hs with h | h
    · exact tw1 s h
    · exact tw2 s h

theorem taggedExt_addError (r : VResult) (m : String) (hm : Tagged m) :
    TaggedExt r (r.addError m) :=
  ⟨⟨[m], rfl, by simpa using hm⟩, ⟨[], by simp [VResult.addError]⟩⟩

theorem taggedExt_addWarning (r : VResult) (m : String) (hm : Tagged m) :
    TaggedExt r (r.addWarning m) :=
  ⟨⟨[], by simp [VResult.addWarning]⟩, ⟨[m], rfl, by simpa using hm⟩⟩

theorem taggedExt_foldl {α : Type} (f : VResult → α → VResult)
    (h : ∀ r a, TaggedExt r (f r a)) (l : List α) (r : VResult) :
    TaggedExt r (l.foldl f r) := by
  induction l generalizing r with
  | nil => exact taggedExt_refl r
  | cons a as ih => exact taggedExt_trans (h r a) (ih (f r a))

theorem tagged_game (t : String) : Tagged ("Game " ++ t) :=
  ⟨"Game ", t, by simp [msgTags], rfl⟩

theorem tagged_plugin (t : String) : Tagged ("Plugin " ++ t) :=
  ⟨"Plugin ", t, by simp [msgTags], rfl⟩

theorem tagged_framework (t : String) : Tagged ("Framework " ++ t) :=
  ⟨"Framework ", t, by simp [msgTags], rfl⟩

theorem tagged_failed_parse (t : String) : Tagged ("Failed to parse YAML " ++ t) :=
  ⟨"Failed to parse YAML ", t, by simp [msgTags], rfl⟩

theorem tagged_schema_msg (t : String) : Tagged ("Schema " ++ t) :=
  ⟨"Schema ", t, by simp [msgTags], rfl⟩

theorem tagged_validation_failed (t : String) : Tagged ("Validation failed for " ++ t) :=
  ⟨"Validation failed for ", t, by simp [msgTags], rfl⟩

theorem tagged_dash (t : String) : Tagged ("  - " ++ t) :=
  ⟨"  - ", t, by simp [msgTags], rfl⟩



theorem taggedExt_readYAML (fsys : FSys) (p : String) (r : VResult) :
    TaggedExt r (readYAML fsys p r).2 := by
  unfold readYAML
  cases h : lookupFile fsys p with
  | none => exact taggedExt_addError r _ (tagged_failed_parse _)
  | some e =>
    cases e with
    | ok v => exact taggedExt_refl r
    | error m => exact taggedExt_addError r _ (tagged_failed_parse _)

theorem taggedExt_pushAjvErrors (r : VResult) (p : String) (es : List AjvError) :
    TaggedExt r (pushAjvErrors r p es) := by
  unfold pushAjvErrors
  refine taggedExt_trans
    (taggedExt_addError r ("Validation failed for " ++ (p ++ ":")) (tagged_validation_failed _)) ?_
  exact taggedExt_foldl _ (fun r e => taggedExt_addError r _ (tagged_dash _)) es _

theorem taggedExt_validateSchema_v1 (reg : Registry) (d : Value) (n p : String)
    (r : VResult) : TaggedExt r (validateSchema_v1 reg d n p r).2 := by
  unfold validateSchema_v1
  cases h : getSchema reg n with
  | none => exact taggedExt_addError r _ (tagged_schema_msg _)
  | some f =>
    dsimp only
    split
    · exact taggedExt_refl r
    · exact taggedExt_pushAjvErrors r p _

theorem taggedExt_validateSchema_v2 (reg : Registry) (d : Value) (n p : String)
    (r : VResult) : TaggedExt r (validateSchema_v2 reg d n p r).2 := by
  unfold validateSchema_v2
  cases h : getSchema reg n with
  | none => exact taggedExt_addWarning r _ (tagged_schema_msg _)
  | some f =>
    dsimp only
    split
    · exact taggedExt_refl r
    · split
      · exact taggedExt_pushAjvErrors r p _
      · exact taggedExt_refl r

theorem taggedExt_addError_of {r X : VResult} {m : String} (h : TaggedExt r X)
    (hm : Tagged m) : TaggedExt r (X.addError m) :=
  taggedExt_trans h (taggedExt_addError X m hm)

theorem taggedExt_addWarning_of {r X : VResult} {m : String} (h : TaggedExt r X)
    (hm : Tagged m) : TaggedExt r (X.addWarning m) :=
  taggedExt_trans h (taggedExt_addWarning X m hm)

theorem taggedExt_readYAML_of {r X : VResult} {fsys : FSys} {p : String}
    (h : TaggedExt r X) : TaggedExt r (readYAML fsys p X).2 :=
  taggedExt_trans h (taggedExt_readYAML fsys p X)

theorem taggedExt_validateSchema_v1_of {r X : VResult} {reg : Registry} {d : Value}
    {n p : String} (h : TaggedExt r X) : TaggedExt r (validateSchema_v1 reg d n p X).2 :=
  taggedExt_trans h (taggedExt_validateSchema_v1 reg d n p X)

theorem taggedExt_validateSchema_v2_of {r X : VResult} {reg : Registry} {d : Value}
    {n p : String} (h : TaggedExt r X) : TaggedExt r (validateSchema_v2 reg d n p X).2 :=
  taggedExt_trans h (taggedExt_validateSchema_v2 reg d n p X)

theorem taggedExt_foldl_of {α : Type} {r X : VResult} (f : VResult → α → VResult)
    (l : List α) (hf : ∀ rr a, TaggedExt rr (f rr a)) (h : TaggedExt r X) :
    TaggedExt r (l.foldl f X) :=
  taggedExt_trans h (taggedExt_foldl f hf l X)

theorem taggedExt_idCheck (game gameData : Value) (r : VResult) :
    TaggedExt r (idCheck game gameData r) := by
  unfold idCheck
  split
  · exact taggedExt_addError r _ (tagged_game _)
  · exact taggedExt_refl r

theorem taggedExt_idCheck_of {r X : VResult} {game gameData : Value}
    (h : TaggedExt r X) : TaggedExt r (idCheck game gameData X) :=
  taggedExt_trans h (taggedExt_idCheck game gameData X)

theorem taggedExt_nameCheck_v2 (game gameData : Value) (r : VResult) :
    TaggedExt r (nameCheck_v2 game gameData r) := by
  unfold nameCheck_v2
  split
  · exact taggedExt_addWarning r _ (tagged_game _)
  · exact taggedExt_refl r

theorem taggedExt_nameCheck_v2_of {r X : VResult} {game gameData : Value}
    (h : TaggedExt r X) : TaggedExt r (nameCheck_v2 game gameData X) :=
  taggedExt_trans h (taggedExt_nameCheck_v2 game gameData X)

theorem taggedExt_checkGameYml_v1 (fsys : FSys) (reg : Registry) (game : Value)
    (gameDir : String) (r : VResult) :
    TaggedExt r (checkGameYml_v1 fsys reg game gameDir r) := by
  unfold checkGameYml_v1
  dsimp only
  repeat
    first
    | exact taggedExt_refl _
    | exact tagged_game _
    | exact tagged_plugin _
    | exact tagged_framework _
    | apply taggedExt_idCheck_of
    | apply taggedExt_nameCheck_v2_of
    | apply taggedExt_addError_of
    | apply taggedExt_addWarning_of
    | apply taggedExt_validateSchema_v1_of
    | apply taggedExt_validateSchema_v2_of
    | apply taggedExt_readYAML_of
    | split

theorem taggedExt_checkAdapter_v1 (fsys : FSys) (reg : Registry) (game : Value)
    (gameDir : String) (r : VResult) :
    TaggedExt r (checkAdapter_v1 fsys reg game gameDir r) := by
  unfold checkAdapter_v1
  dsimp only
  repeat
    first
    | exact taggedExt_refl _
    | exact tagged_game _
    | exact tagged_plugin _
    | exact tagged_framework _
    | apply taggedExt_idCheck_of
    | apply taggedExt_addError_of
    | apply taggedExt_addWarning_of
    | apply taggedExt_validateSchema_v1_of
    | apply taggedExt_readYAML_of
    | split

theorem taggedExt_checkFrameworkFile_v1 (fsys : FSys) (reg : Registry) (game : Value)
    (frameworksDir : String) (r : VResult) (f : String) :
    TaggedExt r (checkFrameworkFile_v1 fsys reg game frameworksDir r f) := by
  unfold checkFrameworkFile_v1
  dsimp only
  repeat
    first
    | exact taggedExt_refl _
    | exact tagged_game _
    | exact tagged_framework _
    | apply taggedExt_addError_of
    | apply taggedExt_validateSchema_v1_of
    | apply taggedExt_readYAML_of
    | split

theorem taggedExt_checkPlugin_v1 (fsys : FSys) (reg : Registry) (game : Value)
    (pluginsDir : String) (r : VResult) (pluginId : String) :
    TaggedExt r (checkPlugin_v1 fsys reg game pluginsDir r pluginId) := by
  unfold checkPlugin_v1
  dsimp only
  repeat
    first
    | exact taggedExt_refl _
    | exact tagged_game _
    | exact tagged_plugin _
    | apply taggedExt_addError_of
    | apply taggedExt_addWarning_of
    | apply taggedExt_validateSchema_v1_of
    | apply taggedExt_readYAML_of
    | split

theorem taggedExt_checkGame_v1 (fsys : FSys) (reg : Registry) (rootDir : String)
    (r : VResult) (game : Value) :
    TaggedExt r (checkGame_v1 fsys reg rootDir r game) := by
  unfold checkGame_v1
  dsimp only
  split
  · exact taggedExt_addError r _ (tagged_game _)
  · split
    · refine taggedExt_foldl_of _ _ (fun rr a => taggedExt_checkPlugin_v1 fsys reg game _ rr a) ?_
      split
      · refine taggedExt_foldl_of _ _
          (fun rr a => taggedExt_checkFrameworkFile_v1 fsys reg game _ rr a) ?_
        exact taggedExt_trans (taggedExt_checkGameYml_v1 fsys reg game _ r)
          (taggedExt_checkAdapter_v1 fsys reg game _ _)
      · exact taggedExt_trans (taggedExt_checkGameYml_v1 fsys reg game _ r)
          (taggedExt_checkAdapter_v1 fsys reg game _ _)
    · split
      · refine taggedExt_foldl_of _ _
          (fun rr a => taggedExt_checkFrameworkFile_v1 fsys reg game _ rr a) ?_
        exact taggedExt_trans (taggedExt_checkGameYml_v1 fsys reg game _ r)
          (taggedExt_checkAdapter_v1 fsys reg game _ _)
      · exact taggedExt_trans (taggedExt_checkGameYml_v1 fsys reg game _ r)
          (taggedExt_checkAdapter_v1 fsys reg game _ _)



theorem taggedExt_checkFramework_v2 (game : Value) (r : VResult) (fw : Value) :
    TaggedExt r (checkFramework_v2 game r fw) := by
  unfold checkFramework_v2
  split
  · exact taggedExt_addError r _ (tagged_game _)
  · exact taggedExt_refl r

theorem taggedExt_checkFrameworksSpec_v2 (fsys : FSys) (game : Value) (gameDir : String)
    (ref : Value) (r : VResult) :
    TaggedExt r (checkFrameworksSpec_v2 fsys game gameDir ref r) := by
  unfold checkFrameworksSpec_v2
  dsimp only
  split
  · exact taggedExt_addError r _ (tagged_game _)
  · split
    · split
      · refine taggedExt_addError_of ?_ (tagged_game _)
        split
        · exact taggedExt_addError_of (taggedExt_readYAML fsys _ r) (tagged_game _)
        · exact taggedExt_readYAML fsys _ r
      · refine taggedExt_foldl_of _ _ (fun rr a => taggedExt_checkFramework_v2 game rr a) ?_
        split
        · exact taggedExt_addError_of (taggedExt_readYAML fsys _ r) (tagged_game _)
        · exact taggedExt_readYAML fsys _ r
    · exact taggedExt_readYAML fsys _ r

theorem taggedExt_checkConfigFile_v2 (fsys : FSys) (game : Value) (gameDir : String)
    (r : VResult) (cf : Value) :
    TaggedExt r (checkConfigFile_v2 fsys game gameDir r cf) := by
  unfold checkConfigFile_v2
  dsimp only
  repeat
    first
    | exact taggedExt_refl _
    | exact tagged_game _
    | apply taggedExt_addError_of
    | apply taggedExt_addWarning_of
    | apply taggedExt_readYAML_of
    | split

theorem taggedExt_checkConfigSpec_v2 (fsys : FSys) (game : Value) (gameDir : String)
    (ref : Value) (r : VResult) :
    TaggedExt r (checkConfigSpec_v2 fsys game gameDir ref r) := by
  unfold checkConfigSpec_v2
  dsimp only
  split
  · exact taggedExt_addError r _ (tagged_game _)
  · split
    · split
      · refine taggedExt_addError_of ?_ (tagged_game _)
        split
        · exact taggedExt_addError_of (taggedExt_readYAML fsys _ r) (tagged_game _)
        · exact taggedExt_readYAML fsys _ r
      · refine taggedExt_foldl_of _ _
          (fun rr a => taggedExt_checkConfigFile_v2 fsys game gameDir rr a) ?_
        split
        · exact taggedExt_addError_of (taggedExt_readYAML fsys _ r) (tagged_game _)
        · exact taggedExt_readYAML fsys _ r
    · exact taggedExt_readYAML fsys _ r

theorem taggedExt_checkFrameworksSpec_v2_of {r X : VResult} {fsys : FSys} {game : Value}
    {gameDir : String} {ref : Value} (h : TaggedExt r X) :
    TaggedExt r (checkFrameworksSpec_v2 fsys game gameDir ref X) :=
  taggedExt_trans h (taggedExt_checkFrameworksSpec_v2 fsys game gameDir ref X)

theorem taggedExt_checkConfigSpec_v2_of {r X : VResult} {fsys : FSys} {game : Value}
    {gameDir : String} {ref : Value} (h : TaggedExt r X) :
    TaggedExt r (checkConfigSpec_v2 fsys game gameDir ref X) :=
  taggedExt_trans h (taggedExt_checkConfigSpec_v2 fsys game gameDir ref X)

theorem taggedExt_checkGame_v2 (fsys : FSys) (reg : Registry) (rootDir : String)
    (r : VResult) (game : Value) :
    TaggedExt r (checkGame_v2 fsys reg rootDir r game) := by
  unfold checkGame_v2
  dsimp only
  split
  · exact taggedExt_addError r _ (tagged_game _)
  · split
    · exact taggedExt_addError r _ (tagged_game _)
    · split
      · split
        · split
          · refine taggedExt_checkConfigSpec_v2_of ?_
            split
            · refine taggedExt_checkFrameworksSpec_v2_of ?_
              exact taggedExt_nameCheck_v2_of
                (taggedExt_validateSchema_v2_of (taggedExt_readYAML fsys _ r))
            · exact taggedExt_nameCheck_v2_of
                (taggedExt_validateSchema_v2_of (taggedExt_readYAML fsys _ r))
          · split
            · refine taggedExt_checkFrameworksSpec_v2_of ?_
              exact taggedExt_nameCheck_v2_of
                (taggedExt_validateSchema_v2_of (taggedExt_readYAML fsys _ r))
            · exact taggedExt_nameCheck_v2_of
                (taggedExt_validateSchema_v2_of (taggedExt_readYAML fsys _ r))
        · exact taggedExt_nameCheck_v2_of
            (taggedExt_validateSchema_v2_of (taggedExt_readYAML fsys _ r))
      · exact taggedExt_readYAML fsys _ r




theorem tagged_ne_specMismatch {s : String} (h : Tagged s) (i m : Value) :
    s ≠ specMismatchMsg i m := by
  obtain ⟨p, t, hp, rfl⟩ := h
  intro he
  have hd := congrArg String.data he
  unfold specMismatchMsg at hd
  rw [String.data_append, String.data_append] at hd
  have h2 : ("index.yml specVersion (").data =
    ['i','n','d','e','x','.','y','m','l',' ','s','p','e','c','V','e','r','s','i','o','n',' ','('] := rfl
  rw [h2] at hd
  simp only [msgTags, List.mem_cons, List.not_mem_nil, or_false] at hp
  rcases hp with rfl | rfl | rfl | rfl | rfl | rfl | rfl
  case _ => rw [show ("Failed to parse YAML ").data = ['F','a','i','l','e','d',' ','t','o',' ','p','a','r','s','e',' ','Y','A','M','L',' '] from rfl] at hd; simp only [List.cons_append] at hd; injection hd with hh _; exact absurd hh (by decide)
  case _ => rw [show ("Schema ").data = ['S','c','h','e','m','a',' '] from rfl] at hd; simp only [List.cons_append] at hd; injection hd with hh _; exact absurd hh (by decide)
  case _ => rw [show ("Validation failed for ").data = ['V','a','l','i','d','a','t','i','o','n',' ','f','a','i','l','e','d',' ','f','o','r',' '] from rfl] at hd; simp only [List.cons_append] at hd; injection hd with hh _; exact absurd hh (by decide)
  case _ => rw [show ("  - ").data = [' ',' ','-',' '] from rfl] at hd; simp only [List.cons_append] at hd; injection hd with hh _; exact absurd hh (by decide)
  case _ => rw [show ("Game ").data = ['G','a','m','e',' '] from rfl] at hd; simp only [List.cons_append] at hd; injection hd with hh _; exact absurd hh (by decide)
  case _ => rw [show ("Plugin ").data = ['P','l','u','g','i','n',' '] from rfl] at hd; simp only [List.cons_append] at hd; injection hd with hh _; exact absurd hh (by decide)
  case _ => rw [show ("Framework ").data = ['F','r','a','m','e','w','o','r','k',' '] from rfl] at hd; simp only [List.cons_append] at hd; injection hd with hh _; exact absurd hh (by decide)



theorem count_mismatch_zero {l : List String} (h : ∀ s ∈ l, Tagged s) (i m : Value) :
    l.count (specMismatchMsg i m) = 0 :=
  List.count_eq_zero.mpr (fun hmem => tagged_ne_specMismatch (h _ hmem) i m rfl)

theorem afterIndexChecks_v2_eq (fsys : FSys) (reg : Registry) (rootDir : String)
    {m i : Value}
    (hm : lookupFile fsys (pathJoin rootDir "manifest.yml") = some (Except.ok m))
    (hmt : m.truthy = true)
    (hi : lookupFile fsys (pathJoin rootDir "index.yml") = some (Except.ok i))
    (hit : i.truthy = true) :
    afterIndexChecks_v2 fsys reg rootDir =
      (i,
       if !(jsEq (i.get "specVersion") (m.get "specVersion")) then
         ((validateSchema_v2 reg i "index" "index.yml"
           (validateSchema_v2 reg m "manifest" "manifest.yml" ⟨[], []⟩).2).2).addError
           (specMismatchMsg i m)
       else (validateSchema_v2 reg i "index" "index.yml"
           (validateSchema_v2 reg m "manifest" "manifest.yml" ⟨[], []⟩).2).2) := by
  unfold afterIndexChecks_v2
  rw [readYAML_ok ⟨[], []⟩ hm]
  dsimp only
  rw [hmt]
  simp only [if_true]
  rw [readYAML_ok _ hi]
  dsimp only
  rw [hit]
  simp only [if_true, Bool.true_and]



theorem runValidation_v2_eq (fsys : FSys) (reg : Registry) (rootDir : String)
    {m i : Value}
    (hm : lookupFile fsys (pathJoin rootDir "manifest.yml") = some (Except.ok m))
    (hmt : m.truthy = true)
    (hi : lookupFile fsys (pathJoin rootDir "index.yml") = some (Except.ok i))
    (hit : i.truthy = true) :
    runValidation_v2 fsys reg rootDir =
      (gamesList i).foldl (checkGame_v2 fsys reg rootDir)
        (if !(jsEq (i.get "specVersion") (m.get "specVersion")) then
          ((validateSchema_v2 reg i "index" "index.yml"
            (validateSchema_v2 reg m "manifest" "manifest.yml" ⟨[], []⟩).2).2).addError
            (specMismatchMsg i m)
         else (validateSchema_v2 reg i "index" "index.yml"
            (validateSchema_v2 reg m "manifest" "manifest.yml" ⟨[], []⟩).2).2) := by
  unfold runValidation_v2
  rw [afterIndexChecks_v2_eq fsys reg rootDir hm hmt hi hit]
  dsimp only
  rw [hit]
  simp only [if_true]

theorem mismatchCount_v2 (fsys : FSys) (reg : Registry) (rootDir : String) (m i : Value)
    (hm : lookupFile fsys (pathJoin rootDir "manifest.yml") = some (Except.ok m))
    (hmt : m.truthy = true)
    (hi : lookupFile fsys (pathJoin rootDir "index.yml") = some (Except.ok i))
    (hit : i.truthy = true) :
    (runValidation_v2 fsys reg rootDir).errors.count (specMismatchMsg i m) =
      (if jsEq (i.get "specVersion") (m.get "specVersion") then 0 else 1) ∧
    (runValidation_v2 fsys reg rootDir).warnings.count (specMismatchMsg i m) = 0 := by
  rw [runValidation_v2_eq fsys reg rootDir hm hmt hi hit]
  have hT : TaggedExt ⟨[], []⟩
      (validateSchema_v2 reg i "index" "index.yml"
        (validateSchema_v2 reg m "manifest" "manifest.yml" ⟨[], []⟩).2).2 :=
    taggedExt_validateSchema_v2_of (taggedExt_validateSchema_v2_of (taggedExt_refl _))
  obtain ⟨⟨es, hes, tes⟩, ⟨ws, hws, tws⟩⟩ := hT
  cases hjs : jsEq (i.get "specVersion") (m.get "specVersion") with
  | false =>
    simp only [hjs, Bool.not_false, if_true, if_false]
    have hT2 := taggedExt_foldl (checkGame_v2 fsys reg rootDir)
      (fun rr a => taggedExt_checkGame_v2 fsys reg rootDir rr a) (gamesList i)
      (((validateSchema_v2 reg i "index" "index.yml"
        (validateSchema_v2 reg m "manifest" "manifest.yml" ⟨[], []⟩).2).2).addError
        (specMismatchMsg i m))
    obtain ⟨⟨es2, hes2, tes2⟩, ⟨ws2, hws2, tws2⟩⟩ := hT2
    rw [hes2, hws2]
    constructor
    · rw [List.count_append]
      have : (((validateSchema_v2 reg i "index" "index.yml"
          (validateSchema_v2 reg m "manifest" "manifest.yml" ⟨[], []⟩).2).2).addError
          (specMismatchMsg i m)).errors = es ++ [specMismatchMsg i m] := by
        show (validateSchema_v2 reg i "index" "index.yml"
          (validateSchema_v2 reg m "manifest" "manifest.yml" ⟨[], []⟩).2).2.errors ++
          [specMismatchMsg i m] = es ++ [specMismatchMsg i m]
        rw [hes]
        simp
      rw [this, List.count_append, count_mismatch_zero tes i m,
        count_mismatch_zero tes2 i m]
      simp
    · rw [List.count_append]
      have : (((validateSchema_v2 reg i "index" "index.yml"
          (validateSchema_v2 reg m "manifest" "manifest.yml" ⟨[], []⟩).2).2).addError
          (specMismatchMsg i m)).warnings = ws := by
        show (validateSchema_v2 reg i "index" "index.yml"
          (validateSchema_v2 reg m "manifest" "manifest.yml" ⟨[], []⟩).2).2.warnings = ws
        rw [hws]; simp
      rw [this, count_mismatch_zero tws i m, count_mismatch_zero tws2 i m]
  | true =>
    simp only [hjs, Bool.not_true, Bool.false_eq_true, if_false]
    have hT2 := taggedExt_foldl (checkGame_v2 fsys reg rootDir)
      (fun rr a => taggedExt_checkGame_v2 fsys reg rootDir rr a) (gamesList i)
      ((validateSchema_v2 reg i "index" "index.yml"
        (validateSchema_v2 reg m "manifest" "manifest.yml" ⟨[], []⟩).2).2)
    obtain ⟨⟨es2, hes2, tes2⟩, ⟨ws2, hws2, tws2⟩⟩ := hT2
    rw [hes2, hws2]
    constructor
    · rw [List.count_append]
      have he : (validateSchema_v2 reg i "index" "index.yml"
          (validateSchema_v2 reg m "manifest" "manifest.yml" ⟨[], []⟩).2).2.errors = es := by
        rw [hes]; simp
      rw [he, count_mismatch_zero tes i m, count_mismatch_zero tes2 i m]
      simp
    · rw [List.count_append]
      have hw : (validateSchema_v2 reg i "index" "index.yml"
          (validateSchema_v2 reg m "manifest" "manifest.yml" ⟨[], []⟩).2).2.warnings = ws := by
        rw [hws]; simp
      rw [hw, count_mismatch_zero tws i m, count_mismatch_zero tws2 i m]



theorem exitCode_ne_zero_iff (r : VResult) : exitCode r ≠ 0 ↔ r.errors ≠ [] := by
  unfold exitCode
  split
  · next h =>
    simp only [ne_eq, one_ne_zero, not_false_eq_true, true_iff]
    exact List.length_pos.mp h
  · next h =>
    simp only [ne_eq, not_true_eq_false, false_iff, not_not]
    exact List.length_eq_zero.mp (Nat.eq_zero_of_not_pos h)

theorem lookupFile_none {fsys : FSys} {p : String} (h : isFile fsys p = false) :
    lookupFile fsys p = none := by
  unfold isFile at h
  cases hx : lookupFile fsys p with
  | none => rfl
  | some v => rw [hx] at h; simp at h

theorem readYAML_none {fsys : FSys} {p : String} (r : VResult)
    (h : lookupFile fsys p = none) :
    readYAML fsys p r = (Value.null, r.addError ("Failed to parse YAML " ++ p ++ ": " ++
      ("ENOENT: no such file or directory, open " ++ p))) := by
  unfold readYAML
  rw [h]

theorem existsSync_of_lookup {fsys : FSys} {p : String} {x : Except String Value}
    (h : lookupFile fsys p = some x) : existsSync fsys p = true := by
  unfold existsSync isFile
  rw [h]
  simp

theorem jsEq_str_iff (a : Value) (s : String) : jsEq a (Value.str s) = true ↔ a = Value.str s := by
  cases a <;> simp [jsEq]

theorem validateSchema_v1_pass {reg : Registry} {n : String} {f : SchemaFn} {d : Value}
    (p : String) (r : VResult) (hf : getSchema reg n = some f) (hd : f d = []) :
    validateSchema_v1 reg d n p r = (true, r) := by
  unfold validateSchema_v1
  rw [hf]
  dsimp only
  rw [hd]
  rfl

theorem afterIndexChecks_v1_eq (fsys : FSys) (reg : Registry) (rootDir : String)
    {m i : Value}
    (hm : lookupFile fsys (pathJoin rootDir "manifest.yml") = some (Except.ok m))
    (hmt : m.truthy = true)
    (hi : lookupFile fsys (pathJoin rootDir "index.yml") = some (Except.ok i))
    (hit : i.truthy = true) :
    afterIndexChecks_v1 fsys reg rootDir =
      (i,
       if !(jsEq (i.get "specVersion") (m.get "specVersion")) then
         ((validateSchema_v1 reg i "index" "index.yml"
           (validateSchema_v1 reg m "manifest" "manifest.yml" ⟨[], []⟩).2).2).addError
           (specMismatchMsg i m)
       else (validateSchema_v1 reg i "index" "index.yml"
           (validateSchema_v1 reg m "manifest" "manifest.yml" ⟨[], []⟩).2).2) := by
  unfold afterIndexChecks_v1
  rw [readYAML_ok ⟨[], []⟩ hm]
  dsimp only
  rw [hmt]
  simp only [if_true]
  rw [readYAML_ok _ hi]
  dsimp only
  rw [hit]
  simp only [if_true, Bool.true_and]

theorem runValidation_v1_eq (fsys : FSys) (reg : Registry) (rootDir : String)
    {m i : Value}
    (hm : lookupFile fsys (pathJoin rootDir "manifest.yml") = some (Except.ok m))
    (hmt : m.truthy = true)
    (hi : lookupFile fsys (pathJoin rootDir "index.yml") = some (Except.ok i))
    (hit : i.truthy = true) :
    runValidation_v1 fsys reg rootDir =
      (gamesList i).foldl (checkGame_v1 fsys reg rootDir)
        (if !(jsEq (i.get "specVersion") (m.get "specVersion")) then
          ((validateSchema_v1 reg i "index" "index.yml"
            (validateSchema_v1 reg m "manifest" "manifest.yml" ⟨[], []⟩).2).2).addError
            (specMismatchMsg i m)
         else (validateSchema_v1 reg i "index" "index.yml"
            (validateSchema_v1 reg m "manifest" "manifest.yml" ⟨[], []⟩).2).2) := by
  unfold runValidation_v1
  rw [afterIndexChecks_v1_eq fsys reg rootDir hm hmt hi hit]
  dsimp only
  rw [hit]
  simp only [if_true]

theorem mismatchCount_v1 (fsys : FSys) (reg : Registry) (rootDir : String) (m i : Value)
    (hm : lookupFile fsys (pathJoin rootDir "manifest.yml") = some (Except.ok m))
    (hmt : m.truthy = true)
    (hi : lookupFile fsys (pathJoin rootDir "index.yml") = some (Except.ok i))
    (hit : i.truthy = true) :
    (runValidation_v1 fsys reg rootDir).errors.count (specMismatchMsg i m) =
      (if jsEq (i.get "specVersion") (m.get "specVersion") then 0 else 1) ∧
    (runValidation_v1 fsys reg rootDir).warnings.count (specMismatchMsg i m) = 0 := by
  rw [runValidation_v1_eq fsys reg rootDir hm hmt hi hit]
  have hT : TaggedExt ⟨[], []⟩
      (validateSchema_v1 reg i "index" "index.yml"
        (validateSchema_v1 reg m "manifest" "manifest.yml" ⟨[], []⟩).2).2 :=
    taggedExt_validateSchema_v1_of (taggedExt_validateSchema_v1_of (taggedExt_refl _))
  obtain ⟨⟨es, hes, tes⟩, ⟨ws, hws, tws⟩⟩ := hT
  cases hjs : jsEq (i.get "specVersion") (m.get "specVersion") with
  | false =>
    simp only [hjs, Bool.not_false, if_true, if_false]
    have hT2 := taggedExt_foldl (checkGame_v1 fsys reg rootDir)
      (fun rr a => taggedExt_checkGame_v1 fsys reg rootDir rr a) (gamesList i)
      (((validateSchema_v1 reg i "index" "index.yml"
        (validateSchema_v1 reg m "manifest" "manifest.yml" ⟨[], []⟩).2).2).addError
        (specMismatchMsg i m))
    obtain ⟨⟨es2, hes2, tes2⟩, ⟨ws2, hws2, tws2⟩⟩ := hT2
    rw [hes2, hws2]
    constructor
    · rw [List.count_append]
      have hx : (((validateSchema_v1 reg i "index" "index.yml"
          (validateSchema_v1 reg m "manifest" "manifest.yml" ⟨[], []⟩).2).2).addError
          (specMismatchMsg i m)).errors = es ++ [specMismatchMsg i m] := by
        show (validateSchema_v1 reg i "index" "index.yml"
          (validateSchema_v1 reg m "manifest" "manifest.yml" ⟨[], []⟩).2).2.errors ++
          [specMismatchMsg i m] = es ++ [specMismatchMsg i m]
        rw [hes]
        simp
      rw [hx, List.count_append, count_mismatch_zero tes i m,
        count_mismatch_zero tes2 i m]
      simp
    · rw [List.count_append]
      have hx : (((validateSchema_v1 reg i "index" "index.yml"
          (validateSchema_v1 reg m "manifest" "manifest.yml" ⟨[], []⟩).2).2).addError
          (specMismatchMsg i m)).warnings = ws := by
        show (validateSchema_v1 reg i "index" "index.yml"
          (validateSchema_v1 reg m "manifest" "manifest.yml" ⟨[], []⟩).2).2.warnings = ws
        rw [hws]; simp
      rw [hx, count_mismatch_zero tws i m, count_mismatch_zero tws2 i m]
  | true =>
    simp only [hjs, Bool.not_true, Bool.false_eq_true, if_false]
    have hT2 := taggedExt_foldl (checkGame_v1 fsys reg rootDir)
      (fun rr a => taggedExt_checkGame_v1 fsys reg rootDir rr a) (gamesList i)
      ((validateSchema_v1 reg i "index" "index.yml"
        (validateSchema_v1 reg m "manifest" "manifest.yml" ⟨[], []⟩).2).2)
    obtain ⟨⟨es2, hes2, tes2⟩, ⟨ws2, hws2, tws2⟩⟩ := hT2
    rw [hes2, hws2]
    constructor
    · rw [List.count_append]
      have he : (validateSchema_v1 reg i "index" "index.yml"
          (validateSchema_v1 reg m "manifest" "manifest.yml" ⟨[], []⟩).2).2.errors = es := by
        rw [hes]; simp
      rw [he, count_mismatch_zero tes i m, count_mismatch_zero tes2 i m]
      simp
    · rw [List.count_append]
      have hw : (validateSchema_v1 reg i "index" "index.yml"
          (validateSchema_v1 reg m "manifest" "manifest.yml" ⟨[], []⟩).2).2.warnings = ws := by
        rw [hws]; simp
      rw [hw, count_mismatch_zero tws i m, count_mismatch_zero tws2 i m]



theorem afterIndexChecks_v1_fst (fsys : FSys) (reg : Registry) (rootDir : String)
    {i : Value}
    (hi : lookupFile fsys (pathJoin rootDir "index.yml") = some (Except.ok i)) :
    (afterIndexChecks_v1 fsys reg rootDir).1 = i := by
  unfold afterIndexChecks_v1
  dsimp only
  rw [readYAML_ok _ hi]
  dsimp only
  split <;> rfl

theorem afterIndexChecks_v2_fst (fsys : FSys) (reg : Registry) (rootDir : String)
    {i : Value}
    (hi : lookupFile fsys (pathJoin rootDir "index.yml") = some (Except.ok i)) :
    (afterIndexChecks_v2 fsys reg rootDir).1 = i := by
  unfold afterIndexChecks_v2
  dsimp only
  rw [readYAML_ok _ hi]
  dsimp only
  split <;> rfl

theorem gamesList_empty {i : Value}
    (hg : i.get "games" = Value.null ∨ i.get "games" = Value.arr []) :
    gamesList i = [] := by
  unfold gamesList
  rcases hg with h | h <;> rw [h]

/-- C10: when the parsed index is truthy but has no `games` field (or an
empty `games` list), both walkers traverse zero entries: the run's final
accumulator is exactly the pre-loop accumulator, so nothing at all (in
particular no error and no warning about the absent or empty list) is
recorded by the game loop, and such a run can still exit 0. -/
theorem c10_empty_games (fsys : FSys) (reg : Registry) (rootDir : String) (i : Value)
    (hi : lookupFile fsys (pathJoin rootDir "index.yml") = some (Except.ok i))
    (hit : i.truthy = true)
    (hg : i.get "games" = Value.null ∨ i.get "games" = Value.arr []) :
    gamesList i = [] ∧
    runValidation_v1 fsys reg rootDir = (afterIndexChecks_v1 fsys reg rootDir).2 ∧
    runValidation_v2 fsys reg rootDir = (afterIndexChecks_v2 fsys reg rootDir).2 := by
  have hgl := gamesList_empty hg
  refine ⟨hgl, ?_, ?_⟩
  · unfold runValidation_v1
    dsimp only
    rw [afterIndexChecks_v1_fst fsys reg rootDir hi, hit, hgl]
    simp
  · unfold runValidation_v2
    dsimp only
    rw [afterIndexChecks_v2_fst fsys reg rootDir hi, hit, hgl]
    simp

theorem c10_empty_games_witness :
    (gamesList (Value.obj [("specVersion", Value.str "1.0")]) = [] ∧
     runValidation_v1 fsNoGames regOK "R" = (afterIndexChecks_v1 fsNoGames regOK "R").2 ∧
     runValidation_v2 fsNoGames regOK "R" = (afterIndexChecks_v2 fsNoGames regOK "R").2) ∧
    exitCode (runValidation_v1 fsNoGames regOK "R") = 0 ∧
    exitCode (runValidation_v2 fsNoGames regOK "R") = 0 :=
  ⟨c10_empty_games fsNoGames regOK "R" (Value.obj [("specVersion", Value.str "1.0")])
    rfl rfl (Or.inl rfl), by decide, by decide⟩

/-- C1: for every run of either script, the process exit status is
non-zero exactly when the accumulated error sequence is non-empty, and
the warning sequence never influences the exit status. -/
theorem c1_exit_status (fsys : FSys) (reg : Registry) (rootDir : String)
    (e w w2 : List String) :
    (exitCode (runValidation_v1 fsys reg rootDir) ≠ 0 ↔
      (runValidation_v1 fsys reg rootDir).errors ≠ []) ∧
    (exitCode (runValidation_v2 fsys reg rootDir) ≠ 0 ↔
      (runValidation_v2 fsys reg rootDir).errors ≠ []) ∧
    exitCode ⟨e, w⟩ = exitCode ⟨e, w2⟩ :=
  ⟨exitCode_ne_zero_iff _, exitCode_ne_zero_iff _, rfl⟩

/-- Witness instantiating C1 at a concrete run and concrete warning
lists. -/
theorem c1_exit_status_witness :
    ((exitCode (runValidation_v1 fsNoGames regOK "R") ≠ 0 ↔
       (runValidation_v1 fsNoGames regOK "R").errors ≠ []) ∧
     (exitCode (runValidation_v2 fsNoGames regOK "R") ≠ 0 ↔
       (runValidation_v2 fsNoGames regOK "R").errors ≠ []) ∧
     exitCode ⟨[], []⟩ = exitCode ⟨[], ["w"]⟩) :=
  c1_exit_status fsNoGames regOK "R" [] [] ["w"]




/-- C4: in every run of either script in which the manifest and the index
both parse successfully (to truthy values), the `specVersion`-mismatch
message occurs exactly once among the errors when the two declared
`specVersion` values differ, zero times when they agree, and never
occurs among the warnings. -/
theorem c4_specversion_mismatch (fsys : FSys) (reg : Registry) (rootDir : String)
    (m i : Value)
    (hm : lookupFile fsys (pathJoin rootDir "manifest.yml") = some (Except.ok m))
    (hmt : m.truthy = true)
    (hi : lookupFile fsys (pathJoin rootDir "index.yml") = some (Except.ok i))
    (hit : i.truthy = true) :
    (runValidation_v2 fsys reg rootDir).errors.count (specMismatchMsg i m) =
      (if jsEq (i.get "specVersion") (m.get "specVersion") then 0 else 1) ∧
    (runValidation_v2 fsys reg rootDir).warnings.count (specMismatchMsg i m) = 0 ∧
    (runValidation_v1 fsys reg rootDir).errors.count (specMismatchMsg i m) =
      (if jsEq (i.get "specVersion") (m.get "specVersion") then 0 else 1) ∧
    (runValidation_v1 fsys reg rootDir).warnings.count (specMismatchMsg i m) = 0 :=
  ⟨(mismatchCount_v2 fsys reg rootDir m i hm hmt hi hit).1,
   (mismatchCount_v2 fsys reg rootDir m i hm hmt hi hit).2,
   (mismatchCount_v1 fsys reg rootDir m i hm hmt hi hit).1,
   (mismatchCount_v1 fsys reg rootDir m i hm hmt hi hit).2⟩

/-- Witness for C4 on the concrete mismatching tree `fsMismatch`. -/
theorem c4_specversion_mismatch_witness :
    (runValidation_v2 fsMismatch regOK "R").errors.count
      (specMismatchMsg (Value.obj [("specVersion", Value.str "1.1")])
        (Value.obj [("specVersion", Value.str "1.0")])) = 1 ∧
    (runValidation_v2 fsMismatch regOK "R").warnings.count
      (specMismatchMsg (Value.obj [("specVersion", Value.str "1.1")])
        (Value.obj [("specVersion", Value.str "1.0")])) = 0 ∧
    (runValidation_v1 fsMismatch regOK "R").errors.count
      (specMismatchMsg (Value.obj [("specVersion", Value.str "1.1")])
        (Value.obj [("specVersion", Value.str "1.0")])) = 1 ∧
    (runValidation_v1 fsMismatch regOK "R").warnings.count
      (specMismatchMsg (Value.obj [("specVersion", Value.str "1.1")])
        (Value.obj [("specVersion", Value.str "1.0")])) = 0 :=
  c4_specversion_mismatch fsMismatch regOK "R"
    (Value.obj [("specVersion", Value.str "1.0")])
    (Value.obj [("specVersion", Value.str "1.1")]) rfl rfl rfl rfl

/-- C9: when parsing a file fails, `readYAML` appends exactly one error
(carrying the file path and the parser's message verbatim) to the shared
result and returns the absent value `null`; being a total function, it
never propagates the failure, so the caller's traversal continues with
the remaining documents. -/
theorem c9_parse_failure (fsys : FSys) (p m : String) (r : VResult)
    (h : lookupFile fsys p = some (Except.error m)) :
    readYAML fsys p r =
      (Value.null, ⟨r.errors ++ ["Failed to parse YAML " ++ p ++ ": " ++ m], r.warnings⟩) ∧
    (readYAML fsys p r).1.truthy = false := by
  unfold readYAML
  rw [h]
  exact ⟨rfl, rfl⟩

/-- Witness for C9 on a concrete malformed file. -/
theorem c9_parse_failure_witness :
    readYAML fsParseErr "R/games/rust/game.yml" ⟨[], []⟩ =
      (Value.null,
       ⟨["Failed to parse YAML R/games/rust/game.yml: bad indentation of a mapping entry (3:1)"],
        []⟩) ∧
    (readYAML fsParseErr "R/games/rust/game.yml" ⟨[], []⟩).1.truthy = false :=
  c9_parse_failure fsParseErr "R/games/rust/game.yml"
    "bad indentation of a mapping entry (3:1)" ⟨[], []⟩ rfl

/-- C2 counterexample: `validateSchema` of `tools/validate.mjs`, called
with a schema name that is not registered, appends an error (not a
warning) and returns `false` (failure), contradicting the claim as
stated. -/
theorem c2_missing_schema_cx :
    (validateSchema_v1 [] Value.null "game" "games/rust/game.yml" ⟨[], []⟩).1 = false ∧
    (validateSchema_v1 [] Value.null "game" "games/rust/game.yml" ⟨[], []⟩).2 =
      ⟨["Schema game not found"], []⟩ :=
  ⟨rfl, rfl⟩

/-- C2 amended: for every document and unregistered schema name, the
extended script's `validateSchema` appends a "not found - skipping"
warning and returns `true`, while the `tools/validate.mjs`
`validateSchema` instead appends a "Schema X not found" error and
returns `false`. -/
theorem c2_missing_schema_amended (reg : Registry) (d : Value) (n p : String) (r : VResult)
    (h : getSchema reg n = none) :
    validateSchema_v2 reg d n p r =
      (true, ⟨r.errors, r.warnings ++ ["Schema " ++ (n ++ (" not found for " ++
        (p ++ " - skipping schema validation")))]⟩) ∧
    validateSchema_v1 reg d n p r =
      (false, ⟨r.errors ++ ["Schema " ++ (n ++ " not found")], r.warnings⟩) := by
  unfold validateSchema_v1 validateSchema_v2
  rw [h]
  exact ⟨rfl, rfl⟩

/-- Witness for the amended C2 on the empty registry. -/
theorem c2_missing_schema_amended_witness :
    validateSchema_v2 [] Value.null "game" "games/rust/game.yml" ⟨[], []⟩ =
      (true, ⟨[], ["Schema game not found for games/rust/game.yml - skipping schema validation"]⟩) ∧
    validateSchema_v1 [] Value.null "game" "games/rust/game.yml" ⟨[], []⟩ =
      (false, ⟨["Schema game not found"], []⟩) :=
  c2_missing_schema_amended [] Value.null "game" "games/rust/game.yml" ⟨[], []⟩ rfl



/-- C3: each of the three registryExtensions reference checks of the
extended script — `frameworksSpecRef`, `configSpecRef`, and a config
file descriptor's `schemaRef` — appends exactly one error and no
warning whenever the named path does not resolve to an existing file
(either the dangling-reference error, or, when a directory sits at the
path, the read/parse error). -/
theorem c3_dangling_refs (fsys : FSys) (game : Value) (gameDir : String) (ref cf : Value)
    (r : VResult)
    (h1 : isFile fsys (pathJoin gameDir ref.display) = false)
    (h2 : (cf.get "schemaRef").truthy = true)
    (h3 : isFile fsys (pathJoin gameDir (cf.get "schemaRef").display) = false) :
    ((checkFrameworksSpec_v2 fsys game gameDir ref r).errors.length = r.errors.length + 1 ∧
     (checkFrameworksSpec_v2 fsys game gameDir ref r).warnings = r.warnings) ∧
    ((checkConfigSpec_v2 fsys game gameDir ref r).errors.length = r.errors.length + 1 ∧
     (checkConfigSpec_v2 fsys game gameDir ref r).warnings = r.warnings) ∧
    ((checkConfigFile_v2 fsys game gameDir r cf).errors.length = r.errors.length + 1 ∧
     (checkConfigFile_v2 fsys game gameDir r cf).warnings = r.warnings) := by
  refine ⟨?_, ?_, ?_⟩
  · unfold checkFrameworksSpec_v2
    dsimp only
    cases hex : existsSync fsys (pathJoin gameDir ref.display) with
    | false =>
      simp only [hex, Bool.not_false, if_true]
      simp [VResult.addError]
    | true =>
      simp only [hex, Bool.not_true, Bool.false_eq_true, if_false]
      rw [readYAML_none r (lookupFile_none h1)]
      dsimp only [Value.truthy]
      simp only [Bool.false_eq_true, if_false]
      simp [VResult.addError]
  · unfold checkConfigSpec_v2
    dsimp only
    cases hex : existsSync fsys (pathJoin gameDir ref.display) with
    | false =>
      simp only [hex, Bool.not_false, if_true]
      simp [VResult.addError]
    | true =>
      simp only [hex, Bool.not_true, Bool.false_eq_true, if_false]
      rw [readYAML_none r (lookupFile_none h1)]
      dsimp only [Value.truthy]
      simp only [Bool.false_eq_true, if_false]
      simp [VResult.addError]
  · unfold checkConfigFile_v2
    dsimp only
    rw [h2]
    simp only [Bool.not_true, Bool.false_eq_true, if_false]
    cases hex : existsSync fsys (pathJoin gameDir (cf.get "schemaRef").display) with
    | false =>
      simp only [hex, Bool.not_false, if_true]
      simp [VResult.addError]
    | true =>
      simp only [hex, Bool.not_true, Bool.false_eq_true, if_false]
      rw [readYAML_none r (lookupFile_none h3)]
      dsimp only [Value.truthy]
      simp only [Bool.false_eq_true, if_false]
      simp [VResult.addError]

/-- Witness for C3 on the empty filesystem. -/
theorem c3_dangling_refs_witness :
    ((checkFrameworksSpec_v2 fsEmpty gameRefRust "G" (Value.str "frameworks.yml")
        ⟨[], []⟩).errors.length = 1 ∧
     (checkFrameworksSpec_v2 fsEmpty gameRefRust "G" (Value.str "frameworks.yml")
        ⟨[], []⟩).warnings = []) ∧
    ((checkConfigSpec_v2 fsEmpty gameRefRust "G" (Value.str "frameworks.yml")
        ⟨[], []⟩).errors.length = 1 ∧
     (checkConfigSpec_v2 fsEmpty gameRefRust "G" (Value.str "frameworks.yml")
        ⟨[], []⟩).warnings = []) ∧
    ((checkConfigFile_v2 fsEmpty gameRefRust "G" ⟨[], []⟩ cfListDesc).errors.length = 1 ∧
     (checkConfigFile_v2 fsEmpty gameRefRust "G" ⟨[], []⟩ cfListDesc).warnings = []) :=
  c3_dangling_refs fsEmpty gameRefRust "G" (Value.str "frameworks.yml") cfListDesc
    ⟨[], []⟩ rfl rfl rfl

/-- C5 counterexample: on the minimal tree whose one plugin
subdirectory has neither `plugin.yml` nor `schema.yml`, the run records
the plugin.yml error but ALSO the missing-companion-schema warning,
contradicting the claim that zero such warnings are recorded and that
the warning fires only when the definition file is present. -/
theorem c5_plugin_warning_cx :
    runValidation_v1 fsEmptyPlugin regOK "R" =
      ⟨["Plugin gather-manager: plugin.yml not found"],
       ["Plugin gather-manager: schema.yml not found (optional but recommended)"]⟩ ∧
    exitCode (runValidation_v1 fsEmptyPlugin regOK "R") = 1 := by
  constructor <;> decide

/-- C5 amended: a plugin subdirectory without `plugin.yml` yields
exactly one error naming that subdirectory, and the
missing-companion-schema warning fires exactly when `schema.yml` is
absent, regardless of whether `plugin.yml` is present. -/
theorem c5_plugin_missing_amended (fsys : FSys) (reg : Registry) (game : Value)
    (pluginsDir : String) (r : VResult) (pid : String)
    (h : existsSync fsys (pathJoin (pathJoin pluginsDir pid) "plugin.yml") = false) :
    checkPlugin_v1 fsys reg game pluginsDir r pid =
      ⟨r.errors ++ ["Plugin " ++ (pid ++ ": plugin.yml not found")],
       r.warnings ++
         (if existsSync fsys (pathJoin (pathJoin pluginsDir pid) "schema.yml") = true then []
          else ["Plugin " ++ (pid ++ ": schema.yml not found (optional but recommended)")])⟩ := by
  unfold checkPlugin_v1
  dsimp only
  rw [h]
  simp only [Bool.not_false, if_true]
  cases hs : existsSync fsys (pathJoin (pathJoin pluginsDir pid) "schema.yml") with
  | false =>
    simp only [hs, Bool.not_false, if_true, Bool.false_eq_true, if_false]
    rfl
  | true =>
    simp only [hs, Bool.not_true, Bool.false_eq_true, if_false, if_true]
    simp [VResult.addError]

/-- Witness for the amended C5 on the concrete empty plugin
subdirectory. -/
theorem c5_plugin_missing_amended_witness :
    checkPlugin_v1 fsEmptyPlugin regOK gameRefRust "R/games/rust/plugins" ⟨[], []⟩
        "gather-manager" =
      ⟨["Plugin gather-manager: plugin.yml not found"],
       ["Plugin gather-manager: schema.yml not found (optional but recommended)"]⟩ :=
  c5_plugin_missing_amended fsEmptyPlugin regOK gameRefRust "R/games/rust/plugins"
    ⟨[], []⟩ "gather-manager" rfl



/-- C6: for a config file descriptor whose referenced schema file
exists, parses to a truthy value and has `version` and `file.format`:
a `list`-kind descriptor whose schema lacks `lineSchema` gets exactly
one error (and no warning), while a `kv`-kind descriptor whose schema
lacks `fields` gets exactly one warning (and no error). -/
theorem c6_config_kind_shape (fsys : FSys) (game : Value) (gameDir : String)
    (cf sd : Value) (r : VResult)
    (href : (cf.get "schemaRef").truthy = true)
    (hfile : lookupFile fsys (pathJoin gameDir (cf.get "schemaRef").display) =
      some (Except.ok sd))
    (hsd : sd.truthy = true)
    (hver : (sd.get "version").truthy = true)
    (hfp : (sd.get "file").truthy = true)
    (hfmt : ((sd.get "file").get "format").truthy = true) :
    (jsEq (cf.get "kind") (Value.str "list") = true → (sd.get "lineSchema").truthy = false →
      checkConfigFile_v2 fsys game gameDir r cf =
        ⟨r.errors ++ ["Game " ++ ((game.get "id").display ++ (": " ++
          ((cf.get "schemaRef").display ++ " missing lineSchema (list format requires lineSchema)")))],
         r.warnings⟩) ∧
    (jsEq (cf.get "kind") (Value.str "kv") = true → (sd.get "fields").truthy = false →
      checkConfigFile_v2 fsys game gameDir r cf =
        ⟨r.errors,
         r.warnings ++ ["Game " ++ ((game.get "id").display ++ (": " ++
          ((cf.get "schemaRef").display ++ " missing fields (KV format should have fields)")))]⟩) := by
  unfold checkConfigFile_v2
  dsimp only
  rw [href]
  simp only [Bool.not_true, Bool.false_eq_true, if_false]
  rw [existsSync_of_lookup hfile]
  simp only [Bool.not_true, Bool.false_eq_true, if_false]
  rw [readYAML_ok r hfile]
  dsimp only
  rw [hsd]
  simp only [if_true]
  rw [hver, hfp, hfmt]
  simp only [Bool.not_true, Bool.false_eq_true, Bool.false_or, if_false]
  constructor
  · intro hk hls
    rw [(jsEq_str_iff _ _).mp hk]
    have hkv : jsEq (Value.str "list") (Value.str "kv") = false := by decide
    have hlist : jsEq (Value.str "list") (Value.str "list") = true := by decide
    rw [hkv, hlist, hls]
    simp only [Bool.false_and, Bool.false_eq_true, if_false, Bool.not_false,
      Bool.true_and, if_true]
    rfl
  · intro hk hfd
    rw [(jsEq_str_iff _ _).mp hk]
    have hkv : jsEq (Value.str "kv") (Value.str "kv") = true := by decide
    have hlist : jsEq (Value.str "kv") (Value.str "list") = false := by decide
    rw [hkv, hlist, hfd]
    simp only [Bool.false_and, Bool.false_eq_true, if_false, Bool.not_false,
      Bool.true_and, if_true]
    rfl

/-- Witness for C6 on the concrete schema file without `fields` or
`lineSchema`. -/
theorem c6_config_kind_shape_witness :
    (checkConfigFile_v2 fsConfigSchema gameRefRust "G" ⟨[], []⟩ cfListDesc =
      ⟨["Game rust: config/structure.yml missing lineSchema (list format requires lineSchema)"],
       []⟩) ∧
    (checkConfigFile_v2 fsConfigSchema gameRefRust "G" ⟨[], []⟩ cfKVDesc =
      ⟨[], ["Game rust: config/structure.yml missing fields (KV format should have fields)"]⟩) :=
  ⟨(c6_config_kind_shape fsConfigSchema gameRefRust "G" cfListDesc
      (Value.obj [("version", Value.str "1"),
        ("file", Value.obj [("format", Value.str "lines")])]) ⟨[], []⟩
      rfl rfl rfl rfl rfl rfl).1 (by decide) rfl,
   (c6_config_kind_shape fsConfigSchema gameRefRust "G" cfKVDesc
      (Value.obj [("version", Value.str "1"),
        ("file", Value.obj [("format", Value.str "lines")])]) ⟨[], []⟩
      rfl rfl rfl rfl rfl rfl).2 (by decide) rfl⟩



/-- C7: once an entry document loads successfully, `tools/validate.mjs`
reduces to the `idCheck` step, which appends an error (never a warning)
when the document's identifier differs from the index entry's; the
extended script's `nameCheck_v2` step appends only a warning (the error
sequence is returned unchanged) when a present display name differs
from the index entry's. -/
theorem c7_id_error_name_warning (fsys : FSys) (reg : Registry) (game gd : Value)
    (gameDir : String) (r : VResult)
    (hok : lookupFile fsys (pathJoin gameDir "game.yml") = some (Except.ok gd))
    (ht : gd.truthy = true) :
    (checkGameYml_v1 fsys reg game gameDir r =
      idCheck game gd (validateSchema_v1 reg gd "game" (pathJoin gameDir "game.yml") r).2) ∧
    (jsEq (gd.get "id") (game.get "id") = false →
      idCheck game gd r =
        ⟨r.errors ++ ["Game " ++ ((game.get "id").display ++ (": game.yml id (" ++
          ((gd.get "id").display ++ ") does not match index")))], r.warnings⟩) ∧
    ((gd.get "name").truthy = true → jsEq (gd.get "name") (game.get "name") = false →
      nameCheck_v2 game gd r =
        ⟨r.errors, r.warnings ++ ["Game " ++ ((game.get "id").display ++ (": game.yml name (" ++
          ((gd.get "name").display ++ (") does not match index name (" ++
            ((game.get "name").display ++ ")")))))]⟩) := by
  refine ⟨?_, ?_, ?_⟩
  · unfold checkGameYml_v1
    dsimp only
    rw [existsSync_of_lookup hok]
    simp only [Bool.not_true, Bool.false_eq_true, if_false]
    rw [readYAML_ok r hok]
    dsimp only
    rw [ht]
    simp only [if_true]
  · intro hne
    unfold idCheck
    rw [hne]
    simp only [Bool.not_false, if_true]
    rfl
  · intro hn hne
    unfold nameCheck_v2
    rw [hn, hne]
    simp only [Bool.not_false, Bool.true_and, if_true]
    rfl

/-- Witness for C7 on a document whose id and name both differ from the
index entry. -/
theorem c7_id_error_name_warning_witness :
    (checkGameYml_v1 fsGameOther regOK gameRefRust "G" ⟨[], []⟩ =
      idCheck gameRefRust gdOther (validateSchema_v1 regOK gdOther "game" "G/game.yml" ⟨[], []⟩).2) ∧
    (idCheck gameRefRust gdOther ⟨[], []⟩ =
      ⟨["Game rust: game.yml id (cs2) does not match index"], []⟩) ∧
    (nameCheck_v2 gameRefRust gdOther ⟨[], []⟩ =
      ⟨[], ["Game rust: game.yml name (Counter-Strike 2) does not match index name (Rust)"]⟩) :=
  ⟨(c7_id_error_name_warning fsGameOther regOK gameRefRust gdOther "G" ⟨[], []⟩ rfl rfl).1,
   (c7_id_error_name_warning fsGameOther regOK gameRefRust gdOther "G" ⟨[], []⟩ rfl rfl).2.1
     (by decide),
   (c7_id_error_name_warning fsGameOther regOK gameRefRust gdOther "G" ⟨[], []⟩ rfl rfl).2.2
     rfl (by decide)⟩

/-- C8 counterexample: on a tree whose entry is valid but has no
`adapter.yml`, the `tools/validate.mjs` run records the error
"adapter.yml not found" and exits 1, contradicting the claim that the
adapter's absence yields no error and no warning. -/
theorem c8_adapter_required_cx :
    runValidation_v1 fsNoAdapter regOK "R" = ⟨["Game rust: adapter.yml not found"], []⟩ ∧
    exitCode (runValidation_v1 fsNoAdapter regOK "R") = 1 := by
  constructor <;> decide

/-- C8 amended: `tools/validate.mjs` requires `adapter.yml`: its
absence yields exactly one error (and no warning); when it is present,
parses to a truthy document and passes schema validation, a mismatching
`gameId` back-reference yields exactly one error. -/
theorem c8_adapter_amended (fsys : FSys) (reg : Registry) (game : Value)
    (gameDir : String) (r : VResult) :
    (existsSync fsys (pathJoin gameDir "adapter.yml") = false →
      checkAdapter_v1 fsys reg game gameDir r =
        ⟨r.errors ++ ["Game " ++ ((game.get "id").display ++ ": adapter.yml not found")],
         r.warnings⟩) ∧
    (∀ ad f, lookupFile fsys (pathJoin gameDir "adapter.yml") = some (Except.ok ad) →
      ad.truthy = true → getSchema reg "adapter" = some f → f ad = [] →
      jsEq (ad.get "gameId") (game.get "id") = false →
      checkAdapter_v1 fsys reg game gameDir r =
        ⟨r.errors ++ ["Game " ++ ((game.get "id").display ++ (": adapter.yml gameId (" ++
          ((ad.get "gameId").display ++ ") does not match")))], r.warnings⟩) := by
  constructor
  · intro h
    unfold checkAdapter_v1
    dsimp only
    rw [h]
    simp only [Bool.not_false, if_true]
    rfl
  · intro ad f hok ht hf hfe hne
    unfold checkAdapter_v1
    dsimp only
    rw [existsSync_of_lookup hok]
    simp only [Bool.not_true, Bool.false_eq_true, if_false]
    rw [readYAML_ok r hok]
    dsimp only
    rw [ht]
    simp only [if_true]
    rw [validateSchema_v1_pass _ r hf hfe]
    dsimp only
    rw [hne]
    simp only [Bool.not_false, if_true]
    rfl

/-- Witness for the amended C8: the missing-adapter error and the
back-reference mismatch error on concrete filesystems. -/
theorem c8_adapter_amended_witness :
    (checkAdapter_v1 fsEmpty regOK gameRefRust "G" ⟨[], []⟩ =
      ⟨["Game rust: adapter.yml not found"], []⟩) ∧
    (checkAdapter_v1 fsAdapterOther regOK gameRefRust "G" ⟨[], []⟩ =
      ⟨["Game rust: adapter.yml gameId (cs2) does not match"], []⟩) :=
  ⟨(c8_adapter_amended fsEmpty regOK gameRefRust "G" ⟨[], []⟩).1 rfl,
   (c8_adapter_amended fsAdapterOther regOK gameRefRust "G" ⟨[], []⟩).2 adOther passFn
     rfl rfl rfl rfl (by decide)⟩

end Registries
